import Mathlib

/-!
Verification of the celestrak-go client core: the query-construction and
fetch-with-retry pipeline (celestrak/query.go, the client file with
fetchOnce/fetch/shouldRetry, and the error file with QueryError and
ErrorResponse).

The Go code is shallowly embedded:
  * Go strings are Lean `String`s; response bodies are `List Char`
    (one element per byte; the claims never depend on multi-byte runes).
  * `context.Context` is embedded as an `Option` of a record of the
    observations the code makes of the context (the results of the
    `ctx.Err()` calls and of the `select` on `ctx.Done()`); `none` is a nil
    Go context value.
  * The HTTP transport is embedded as an oracle: the per-attempt result of
    `httpClient.Do` (a transport failure or a response with status code,
    status line, ETag header, and body).
  * Errors are a closed inductive mirroring the dynamic types the code
    constructs: `*QueryError`, `*ErrorResponse`, the opaque transport
    error, `context.Context.Err()` values, and `fmt.Errorf("...: %w", e)`
    wrappers.  A Go type assertion `err.(*QueryError)` inspects only the
    head of the value and does not unwrap, exactly as in Go.
  * `time.Duration` is `Int` (int64 nanoseconds), with two's-complement
    wrapping made explicit where the code multiplies.
-/

namespace Celestrak

/-- Characters removed by Go strings.TrimSpace, i.e. unicode.IsSpace: the
Unicode White_Space code points, written out explicitly. -/
def isGoSpace (c : Char) : Bool :=
  decide (c.toNat = 0x20 ∨ (0x9 ≤ c.toNat ∧ c.toNat ≤ 0xD) ∨ c.toNat = 0x85 ∨
    c.toNat = 0xA0 ∨ c.toNat = 0x1680 ∨ (0x2000 ≤ c.toNat ∧ c.toNat ≤ 0x200A) ∨
    c.toNat = 0x2028 ∨ c.toNat = 0x2029 ∨ c.toNat = 0x202F ∨ c.toNat = 0x205F ∨
    c.toNat = 0x3000)

/-- Go strings.TrimSpace on a byte/char sequence. -/
def trimList (cs : List Char) : List Char :=
  ((cs.dropWhile isGoSpace).reverse.dropWhile isGoSpace).reverse

/-- Go strings.TrimSpace. -/
def trimSpace (s : String) : String :=
  String.mk (trimList s.data)

/-- UTF-8 encoding of one code point (Go strings are UTF-8; url escaping
percent-encodes each byte). -/
def utf8Bytes (c : Char) : List Nat :=
  let n := c.toNat
  if n < 0x80 then [n]
  else if n < 0x800 then [0xC0 + n / 0x40, 0x80 + n % 0x40]
  else if n < 0x10000 then
    [0xE0 + n / 0x1000, 0x80 + (n / 0x40) % 0x40, 0x80 + n % 0x40]
  else
    [0xF0 + n / 0x40000, 0x80 + (n / 0x1000) % 0x40, 0x80 + (n / 0x40) % 0x40,
     0x80 + n % 0x40]

/-- Upper-case hex digit, as in Go net/url ("0123456789ABCDEF"). -/
def hexDigit (n : Nat) : Char :=
  "0123456789ABCDEF".data.getD n '0'

/-- Two upper-case hex digits of a byte. -/
def hexByte (b : Nat) : String :=
  String.mk [hexDigit (b / 16), hexDigit (b % 16)]

/-- Percent-escape of one character (each UTF-8 byte becomes %XX). -/
def escapeChar (c : Char) : String :=
  String.join ((utf8Bytes c).map (fun b => "%" ++ hexByte b))

/-- Characters Go url.QueryEscape leaves unescaped: ASCII alphanumerics and
the unreserved marks. -/
def isUnreservedQuery (c : Char) : Bool :=
  c.isAlphanum || c == '-' || c == '_' || c == '.' || c == '~'

/-- Go url.QueryEscape: unreserved characters kept, space becomes plus,
everything else percent-encoded byte-wise. -/
def queryEscape (s : String) : String :=
  String.join (s.data.map (fun c =>
    if isUnreservedQuery c then String.singleton c
    else if c == ' ' then "+"
    else escapeChar c))

/-- Characters Go net/url leaves unescaped in a path segment
(shouldEscape with mode encodePath). -/
def isPathSafe (c : Char) : Bool :=
  c.isAlphanum || c == '-' || c == '_' || c == '.' || c == '~' ||
  c == '$' || c == '&' || c == '+' || c == ',' || c == '/' || c == ':' ||
  c == ';' || c == '=' || c == '@'

/-- Go URL path escaping as performed by URL.String via EscapedPath. -/
def pathEscape (s : String) : String :=
  String.join (s.data.map (fun c =>
    if isPathSafe c then String.singleton c else escapeChar c))

/-- Go type Format string. -/
abbrev Format := String

def FormatTLE : Format := "TLE"

def FormatJSON : Format := "JSON"

/-- TableFlags from celestrak/query.go. -/
structure TableFlags where
  BSTAR : Bool
  ShowOps : Bool
  Oldest : Bool
  Docked : Bool
  Movers : Bool
deriving DecidableEq

/-- The all-false TableFlags zero value. -/
def noFlags : TableFlags := ⟨false, false, false, false, false⟩

/-- Query from celestrak/query.go. -/
structure Query where
  CATNR : String
  INTDES : String
  GROUP : String
  NAME : String
  SPECIAL : String
  FORMAT : Format
  TableFlags : TableFlags
deriving DecidableEq

/-- Context error values (context.Canceled, context.DeadlineExceeded). -/
inductive CtxErr where
  | canceled
  | deadlineExceeded
deriving DecidableEq

/-- The fields of an http.Response the client reads: StatusCode, Status,
the ETag header, and the body byte stream. -/
structure HResp where
  statusCode : Nat
  status : String
  etag : String
  body : List Char
deriving DecidableEq

/-- The closed set of error values the client's code constructs or observes.
queryError is a value of dynamic type star-QueryError, errorResponse of
star-ErrorResponse (its Response pointer is always non-nil where the code
builds one), transportFailure the opaque error from httpClient.Do,
ctxFailure a context error, wrapf the result of fmt.Errorf with a
percent-w verb, and badWrap fmt.Errorf applied with percent-w to a nil
operand. -/
inductive GoErr where
  | queryError (msg : String)
  | errorResponse (resp : HResp) (msg : String)
  | transportFailure
  | ctxFailure (ce : CtxErr)
  | wrapf (pre : String) (inner : GoErr)
  | badWrap (pre : String)
deriving DecidableEq

/-- IsQueryError from the error file: the Go type assertion
err.(star-QueryError), which looks only at the dynamic type of the value
and performs no unwrapping of fmt.Errorf wrappers. -/
def IsQueryError : GoErr → Bool
  | .queryError _ => true
  | _ => false

/-- ErrorResponse.IsServerError: Response non-nil and StatusCode at least
500 (the Response is non-nil for every ErrorResponse the client builds). -/
def IsServerError (resp : HResp) : Bool :=
  decide (500 ≤ resp.statusCode)

/-- The ambiguous-selector message from singleSelector. -/
def ambiguousSelectorMsg : String := "set exactly one of CATNR/INTDES/GROUP/NAME/SPECIAL"

/-- The missing-selector message from singleSelector. -/
def missingSelectorMsg : String := "missing selector (set one of CATNR/INTDES/GROUP/NAME/SPECIAL)"

/-- The key/val/err state threaded through singleSelector's closure. -/
structure SelState where
  key : String
  val : String
  err : Option GoErr
deriving DecidableEq

/-- The set closure inside singleSelector: trim the value; ignore it when
empty or when an error is already recorded; record the ambiguity error when
a key was already chosen; otherwise take this key and value. -/
def selSet (st : SelState) (k v : String) : SelState :=
  let v := trimSpace v
  if v = "" ∨ st.err.isSome then st
  else if st.key ≠ "" then { st with err := some (.queryError ambiguousSelectorMsg) }
  else { st with key := k, val := v }

/-- singleSelector from celestrak/query.go: fold the five selector fields
in order, then fail on a recorded ambiguity, fail when no key was chosen,
and otherwise return the chosen key and trimmed value. -/
def singleSelector (q : Query) : Except GoErr (String × String) :=
  let st : SelState := ⟨"", "", none⟩
  let st := selSet st "CATNR" q.CATNR
  let st := selSet st "INTDES" q.INTDES
  let st := selSet st "GROUP" q.GROUP
  let st := selSet st "NAME" q.NAME
  let st := selSet st "SPECIAL" q.SPECIAL
  match st.err with
  | some e => .error e
  | none =>
    if st.key = "" then .error (.queryError missingSelectorMsg)
    else .ok (st.key, st.val)

/-- Go url.Values restricted to single-valued keys, as the client uses it:
an association list in insertion order; Set replaces an existing key. -/
abbrev Values := List (String × String)

/-- url.Values.Set for single-valued keys. -/
def valuesSet (vs : Values) (k v : String) : Values :=
  if vs.any (fun p => p.1 == k) then
    vs.map (fun p => if p.1 = k then (k, v) else p)
  else vs ++ [(k, v)]

/-- The format defaulting in BuildURL: an unset FORMAT becomes FormatTLE. -/
def formatOrDefault (q : Query) : Format :=
  if q.FORMAT = "" then FormatTLE else q.FORMAT

/-- addTableFlags from celestrak/query.go: one parameter valued 1 per
enabled flag, in the fixed order BSTAR, SHOW-OPS, OLDEST, DOCKED, MOVERS. -/
def addTableFlags (q : Query) (params : Values) : Values :=
  let params := if q.TableFlags.BSTAR then valuesSet params "BSTAR" "1" else params
  let params := if q.TableFlags.ShowOps then valuesSet params "SHOW-OPS" "1" else params
  let params := if q.TableFlags.Oldest then valuesSet params "OLDEST" "1" else params
  let params := if q.TableFlags.Docked then valuesSet params "DOCKED" "1" else params
  if q.TableFlags.Movers then valuesSet params "MOVERS" "1" else params

/-- The parameter list BuildURL inserts, in insertion order: the selector
key, then FORMAT, then (for table.php) the enabled table flags. -/
def buildParams (q : Query) (key val : String) (endpoint : String) : Values :=
  let params := valuesSet (valuesSet [] key val) "FORMAT" (formatOrDefault q)
  if endpoint = "table.php" then addTableFlags q params else params

/-- Lexicographic comparison on character lists by code point, the order
sort.Strings uses inside url.Values.Encode (Go compares strings byte-wise;
all keys here are ASCII, where code points and bytes agree). -/
def charListLe : List Char → List Char → Bool
  | [], _ => true
  | _ :: _, [] => false
  | a :: as, b :: bs =>
    if a.toNat < b.toNat then true
    else if b.toNat < a.toNat then false
    else charListLe as bs

/-- charListLe is total. -/
theorem charListLe_total : ∀ as bs : List Char,
    charListLe as bs = true ∨ charListLe bs as = true
  | [], _ => .inl rfl
  | _ :: _, [] => .inr rfl
  | a :: as, b :: bs => by
    simp only [charListLe]
    rcases Nat.lt_trichotomy a.toNat b.toNat with h | h | h
    · left
      rw [if_pos h]
    · rw [h]
      simp only [Nat.lt_irrefl, if_false]
      exact charListLe_total as bs
    · right
      rw [if_pos h]

/-- charListLe is transitive. -/
theorem charListLe_trans : ∀ as bs cs : List Char,
    charListLe as bs = true → charListLe bs cs = true → charListLe as cs = true
  | [], _, _, _, _ => rfl
  | _ :: _, [], _, hab, _ => by simp [charListLe] at hab
  | _ :: _, _ :: _, [], _, hbc => by simp [charListLe] at hbc
  | a :: as, b :: bs, c :: cs, hab, hbc => by
    simp only [charListLe] at hab hbc ⊢
    split at hab
    · rename_i h1
      split at hbc
      · rename_i h2
        rw [if_pos (by omega)]
      · split at hbc
        · exact absurd hbc (by simp)
        · rename_i h2 h3
          rw [if_pos (by omega)]
    · split at hab
      · exact absurd hab (by simp)
      · rename_i h1 h2
        split at hbc
        · rename_i h3
          rw [if_pos (by omega)]
        · split at hbc
          · exact absurd hbc (by simp)
          · rename_i h3 h4
            rw [if_neg (by omega), if_neg (by omega)]
            exact charListLe_trans as bs cs hab hbc

/-- Comparison on parameters by key, the order Go url.Values.Encode sorts
keys into. -/
def keyOrder (a b : String × String) : Prop :=
  charListLe a.1.data b.1.data = true

instance : DecidableRel keyOrder :=
  fun a b => inferInstanceAs (Decidable (charListLe a.1.data b.1.data = true))

instance : IsTrans (String × String) keyOrder :=
  ⟨fun a b c => charListLe_trans a.1.data b.1.data c.1.data⟩

instance : IsTotal (String × String) keyOrder :=
  ⟨fun a b => by
    rcases charListLe_total a.1.data b.1.data with h | h
    · exact .inl h
    · exact .inr h⟩

/-- Serialization of a parameter list in the given order. -/
def encodeParamList (vs : Values) : String :=
  String.intercalate "&" (vs.map (fun p => queryEscape p.1 ++ "=" ++ queryEscape p.2))

/-- Go url.Values.Encode: keys sorted, each pair percent-encoded.  The sort
is embedded as insertion sort by keyOrder; the keys the client inserts are
pairwise distinct, so every sorting algorithm by this order, including the
unstable sort.Strings, produces the same list. -/
def encodeValues (vs : Values) : String :=
  encodeParamList (List.insertionSort keyOrder vs)

/-- base.ResolveReference(rel).String() for a base URL of the form
scheme://host with empty path, query and fragment (the client's default
base https celestrak.org is of this form), the base abstracted to its
scheme://host prefix string: the relative URL carries an absolute path and
a raw query, so the result is the prefix, the escaped path, and the query. -/
def resolveURL (b : String) (path rawQuery : String) : String :=
  b ++ pathEscape path ++ (if rawQuery = "" then "" else "?" ++ rawQuery)

/-- BuildURL from celestrak/query.go.  The base pointer is `Option String`
(none is a nil base; some b abstracts a scheme://host base to its prefix
string). -/
def BuildURL (q : Query) (base : Option String) (endpoint : String) :
    Except GoErr String :=
  match base with
  | none => .error (.queryError "base URL is nil")
  | some b =>
    if endpoint = "" then .error (.queryError "endpoint is required")
    else
      match singleSelector q with
      | .error e => .error e
      | .ok (key, val) =>
        .ok (resolveURL b ("/NORAD/elements/" ++ endpoint)
              (encodeValues (buildParams q key val endpoint)))

/-- The default base prefix of NewClient. -/
def defaultBaseURL : String := "https://celestrak.org"

/-- maxResponseSize from the client file: 100 MiB. -/
def maxResponseSize : Nat := 100 * 1024 * 1024

/-- shouldRetry from the client file.  The argument is the error value
(none is a nil error).  The QueryError test is the dynamic type assertion
IsQueryError; the ErrorResponse arm is the type assertion followed by
IsServerError; every other non-nil error is retried. -/
def shouldRetry : Option GoErr → Bool
  | none => false
  | some e =>
    if IsQueryError e then false
    else
      match e with
      | .errorResponse r _ => IsServerError r
      | _ => true

/-- The Client configuration fields fetch and fetchOnce read.  baseURL none
is a nil base pointer; cache none is a nil Cache interface, some f a cache
whose Get is the lookup function f (f key = none is found-false). -/
structure Config where
  baseURL : Option String
  userAgent : String
  cache : Option (String → Option (List Char × String))
  maxRetries : Int
  retryDelay : Int

/-- The outcome of one httpClient.Do call: a transport-level failure or a
response. -/
inductive TransportResult where
  | fail
  | resp (r : HResp)
deriving DecidableEq

/-- The observations one fetchOnce call makes of its context and transport:
the ctx.Err() value at the start-of-attempt check, the ctx.Err() value
consulted when Do fails, and the Do outcome itself. -/
structure AttemptEnv where
  ctxErrAtStart : Option CtxErr
  ctxErrAtDoFail : Option CtxErr
  transport : TransportResult
deriving DecidableEq

/-- The result of one fetchOnce call, together with its cache traffic:
gets is the list of keys looked up via Cache.Get and puts the list of
(key, data, etag) triples stored via Cache.Put, in order. -/
structure FetchOnceOut where
  result : Except GoErr (List Char)
  gets : List String
  puts : List (String × List Char × String)

/-- fetchOnce from the client file.  ctx none is a nil context (caught by
the explicit nil check before anything else).  Reading the body through
io.LimitReader is List.take; the probe read of one further byte after a
cap-sized read succeeds exactly when bytes remain beyond the cap.  The
If-None-Match header (set when the lookup found an entry with a non-empty
etag) does not influence the embedded control flow and is not tracked. -/
def fetchOnce (cfg : Config) (ctx : Option AttemptEnv) (q : Query)
    (endpoint : String) : FetchOnceOut :=
  match ctx with
  | none => ⟨.error (.queryError "context must be non-nil"), [], []⟩
  | some env =>
    match env.ctxErrAtStart with
    | some ce => ⟨.error (.wrapf "context error" (.ctxFailure ce)), [], []⟩
    | none =>
      match BuildURL q cfg.baseURL endpoint with
      | .error e => ⟨.error (.wrapf "build URL" e), [], []⟩
      | .ok fullURL =>
        let cacheKey := fullURL
        let lookupRes : Option (List Char × String) :=
          match cfg.cache with
          | none => none
          | some f => f cacheKey
        let gets : List String := if cfg.cache.isSome then [cacheKey] else []
        match env.transport with
        | .fail =>
          match env.ctxErrAtDoFail with
          | some ce => ⟨.error (.wrapf "request cancelled" (.ctxFailure ce)), gets, []⟩
          | none => ⟨.error (.wrapf "request failed" .transportFailure), gets, []⟩
        | .resp r =>
          if r.statusCode = 304 then
            match lookupRes with
            | some (cached, _) => ⟨.ok cached, gets, []⟩
            | none =>
              ⟨.error (.errorResponse r "304 Not Modified but no cached body available"),
               gets, []⟩
          else if r.statusCode < 200 ∨ 299 < r.statusCode then
            let b := r.body.take 8192
            let message := if trimList b = [] then r.status else String.mk (trimList b)
            ⟨.error (.errorResponse r message), gets, []⟩
          else
            let body := r.body.take maxResponseSize
            if body.length = maxResponseSize ∧ r.body.drop maxResponseSize ≠ [] then
              ⟨.error (.errorResponse r
                 ("response too large (exceeds " ++ toString maxResponseSize ++ " bytes)")),
               gets, []⟩
            else if body.length = 0 then
              ⟨.error (.errorResponse r "empty response body"), gets, []⟩
            else
              match cfg.cache with
              | some _ => ⟨.ok body, gets, [(cacheKey, body, trimSpace r.etag)]⟩
              | none => ⟨.ok body, gets, []⟩

/-- The observations the retry loop makes of a non-nil context across
attempts: ctxErrBefore i is ctx.Err() at the check at the top of loop
iteration i; ctxDuringWait i is some ce when ctx.Done() fires before the
backoff timer during the wait preceding attempt i (with ce the ctx.Err()
value read then), none when the timer fires first; attempt i is the
environment of the i-th fetchOnce call. -/
structure FetchEnv where
  ctxErrBefore : Nat → Option CtxErr
  ctxDuringWait : Nat → Option CtxErr
  attempt : Nat → AttemptEnv

/-- The outcome of fetch: a payload, an error, or a runtime panic. -/
inductive FetchResult where
  | ok (data : List Char)
  | err (e : GoErr)
  | crash
deriving DecidableEq

/-- The result of fetch together with the number of fetchOnce calls
performed and the list of fully completed backoff waits, in order. -/
structure FetchOut where
  result : FetchResult
  attempts : Nat
  waits : List Int
deriving DecidableEq

/-- Two's-complement wrap of an integer into int64, the type of
time.Duration, applied where the loop doubles the delay. -/
def int64wrap (x : Int) : Int :=
  (x + 2 ^ 63) % 2 ^ 64 - 2 ^ 63

/-- The error built when the loop exhausts all attempts:
fmt.Errorf with the configured retry count, wrapping the last error
(badWrap when lastErr is nil, which needs maxRetries negative). -/
def exhaustedErr (maxRetries : Int) (lastErr : Option GoErr) : GoErr :=
  let pre := "max retries (" ++ toString maxRetries ++ ") exceeded"
  match lastErr with
  | some e => .wrapf pre e
  | none => .badWrap pre

/-- The body of fetch's for-loop, recursing on the remaining iteration
count.  i is the attempt index, delay the current backoff delay, lastErr
the last failure.  Each executed iteration begins with the loop-top
ctx.Err() check: on a nil context (ctx none) that statement is a method
call on a nil interface value, which panics in Go, so the iteration
crashes; it is never reached when the iteration budget is already zero.
With a live context the iteration proceeds: for i positive the select
between ctx.Done and the timer (a completed wait records delay and
doubles it, with int64 wrapping); then fetchOnce; a success returns, a
non-retryable failure returns, a retryable failure recurses. -/
def fetchLoop (cfg : Config) (ctx : Option FetchEnv) (q : Query) (endpoint : String) :
    Nat → Nat → Int → Option GoErr → FetchOut
  | 0, _, _, lastErr => ⟨.err (exhaustedErr cfg.maxRetries lastErr), 0, []⟩
  | fuel + 1, i, delay, _ =>
    match ctx with
    | none => ⟨.crash, 0, []⟩
    | some env =>
      match env.ctxErrBefore i with
      | some ce => ⟨.err (.wrapf "context cancelled" (.ctxFailure ce)), 0, []⟩
      | none =>
        if i = 0 then
          match (fetchOnce cfg (some (env.attempt i)) q endpoint).result with
          | .ok data => ⟨.ok data, 1, []⟩
          | .error e =>
            if shouldRetry (some e) then
              let rest := fetchLoop cfg ctx q endpoint fuel (i + 1) delay (some e)
              ⟨rest.result, rest.attempts + 1, rest.waits⟩
            else ⟨.err e, 1, []⟩
        else
          match env.ctxDuringWait i with
          | some ce => ⟨.err (.wrapf "context cancelled during retry" (.ctxFailure ce)), 0, []⟩
          | none =>
            let delay2 := int64wrap (2 * delay)
            match (fetchOnce cfg (some (env.attempt i)) q endpoint).result with
            | .ok data => ⟨.ok data, 1, [delay]⟩
            | .error e =>
              if shouldRetry (some e) then
                let rest := fetchLoop cfg ctx q endpoint fuel (i + 1) delay2 (some e)
                ⟨rest.result, rest.attempts + 1, delay :: rest.waits⟩
              else ⟨.err e, 1, [delay]⟩

/-- fetch from the client file.  The loop runs for attempt from 0 while
attempt is at most maxRetries, so (maxRetries + 1).toNat iterations at
most.  A nil context crashes exactly when the loop body executes at least
once (maxRetries at least 0): the body's first statement is ctx.Err(), a
method call on a nil interface value, which panics in Go before
fetchOnce's nil-context guard can run.  With maxRetries negative the loop
body never runs, ctx is never dereferenced, and fetch returns the
composite error built from the nil lastErr. -/
def fetch (cfg : Config) (ctx : Option FetchEnv) (q : Query)
    (endpoint : String) : FetchOut :=
  fetchLoop cfg ctx q endpoint (cfg.maxRetries + 1).toNat 0 cfg.retryDelay none

/-- FetchGP: fetch against gp.php. -/
def FetchGP (cfg : Config) (ctx : Option FetchEnv) (q : Query) : FetchOut :=
  fetch cfg ctx q "gp.php"

/-- FetchGPFirst: fetch against gp-first.php. -/
def FetchGPFirst (cfg : Config) (ctx : Option FetchEnv) (q : Query) : FetchOut :=
  fetch cfg ctx q "gp-first.php"

/-- FetchGPLast: fetch against gp-last.php. -/
def FetchGPLast (cfg : Config) (ctx : Option FetchEnv) (q : Query) : FetchOut :=
  fetch cfg ctx q "gp-last.php"

/-- FetchTable: fetch against table.php. -/
def FetchTable (cfg : Config) (ctx : Option FetchEnv) (q : Query) : FetchOut :=
  fetch cfg ctx q "table.php"

/-- The configuration NewClient builds: default base, the library
user-agent, no cache, maxRetries 3, retryDelay one second. -/
def defaultConfig : Config :=
  { baseURL := some defaultBaseURL
    userAgent := "celestrak-go/0.0.1"
    cache := none
    maxRetries := 3
    retryDelay := 1000000000 }

/-- A context that never completes, over a transport that fails every
attempt at the network level. -/
def transportFailEnv : FetchEnv :=
  ⟨fun _ => none, fun _ => none, fun _ => ⟨none, none, .fail⟩⟩

/-- The Query zero value: no selector field set. -/
def emptyQuery : Query := ⟨"", "", "", "", "", "", noFlags⟩

/-- A query selecting the STATIONS group with the default format. -/
def stationsQuery : Query := ⟨"", "", "STATIONS", "", "", "", noFlags⟩

/-- The default client with a configured cache that currently holds
nothing. -/
def cacheEmptyCfg : Config :=
  { defaultConfig with cache := some (fun _ => none) }

/-- One attempt observing a live context and a 200 response with body abc
and no ETag header. -/
def okRespEnvNoEtag : AttemptEnv :=
  ⟨none, none, .resp ⟨200, "200 OK", "", "abc".data⟩⟩

/-- C1: the claim says a QueryError produced by the Query Builder (or the
nil-context check) is classified not retryable, so the retry loop returns
it after the first attempt with no further attempts.  The code contradicts
this, and contradicts the comment inside shouldRetry that query errors are
not retried: fetchOnce wraps the builder error with fmt.Errorf, the
IsQueryError dynamic type assertion does not see through the wrapper, so
shouldRetry answers true and the default client performs all four attempts
on a missing-selector query, waiting between them and finally returning
the max-retries composite error instead of the QueryError. -/
theorem c1_wrapped_builder_query_error_is_retried :
    IsQueryError (.queryError missingSelectorMsg) = true ∧
    shouldRetry (some (.wrapf "build URL" (.queryError missingSelectorMsg))) = true ∧
    fetch defaultConfig (some transportFailEnv) emptyQuery "gp.php" =
      ⟨.err (.wrapf "max retries (3) exceeded"
          (.wrapf "build URL" (.queryError missingSelectorMsg))),
       4, [1000000000, 2000000000, 4000000000]⟩ := by
  refine ⟨rfl, rfl, ?_⟩
  decide

/-- C2: the claim says calling fetch (hence any public Fetch operation)
with a nil context returns normally with the QueryError saying the context
must be non-nil and does not crash.  The code contradicts this whenever
the loop body runs at all, i.e. for every configuration with a
non-negative retry budget (NewClient always sets 3): the body's first
statement calls Err on the nil context interface value, which panics in
Go, before fetchOnce's nil-context guard (which does produce that
QueryError when fetchOnce is entered directly) can run.  Only a client
reconfigured to a negative maxRetries avoids the panic, by never entering
the loop body (see the lemma after this theorem). -/
theorem c2_nil_context_crashes_fetch (cfg : Config) (q : Query) (ep : String)
    (hm : 0 ≤ cfg.maxRetries) :
    fetch cfg none q ep = ⟨.crash, 0, []⟩ ∧
    (fetchOnce cfg none q ep).result = .error (.queryError "context must be non-nil") := by
  constructor
  · show fetchLoop cfg none q ep ((cfg.maxRetries + 1).toNat) 0 cfg.retryDelay none = _
    obtain ⟨n, hn⟩ : ∃ n : Nat, (cfg.maxRetries + 1).toNat = n + 1 :=
      ⟨cfg.maxRetries.toNat, by omega⟩
    rw [hn]
    rfl
  · rfl

/-- With a negative retry budget the for-loop body never runs, so a nil
context is never dereferenced: fetch returns the composite error built
from the nil last error instead of crashing. -/
theorem fetch_nil_ctx_negative_retries (q : Query) (ep : String) :
    fetch { defaultConfig with maxRetries := -1 } none q ep =
      ⟨.err (.badWrap "max retries (-1) exceeded"), 0, []⟩ :=
  rfl

/-- C2, witness at the default client (maxRetries 3). -/
theorem c2_witness :
    (0 : Int) ≤ defaultConfig.maxRetries ∧
    (fetch defaultConfig none stationsQuery "gp.php" = ⟨.crash, 0, []⟩ ∧
     (fetchOnce defaultConfig none stationsQuery "gp.php").result =
       .error (.queryError "context must be non-nil")) :=
  ⟨by decide,
   c2_nil_context_crashes_fetch defaultConfig stationsQuery "gp.php" (by decide)⟩

/-- C3 counterexample: for the GROUP selector the URL produced by BuildURL
carries FORMAT before the selector key, so the parameter order is not
insertion order (selector first, then FORMAT): the encoded query differs
from the insertion-order serialization of the same parameter list. -/
theorem c3_counterexample_sorted_not_insertion :
    BuildURL stationsQuery (some defaultBaseURL) "gp.php" =
      .ok "https://celestrak.org/NORAD/elements/gp.php?FORMAT=TLE&GROUP=STATIONS" ∧
    (buildParams stationsQuery "GROUP" "STATIONS" "gp.php").map Prod.fst =
      ["GROUP", "FORMAT"] ∧
    encodeValues (buildParams stationsQuery "GROUP" "STATIONS" "gp.php") ≠
      encodeParamList (buildParams stationsQuery "GROUP" "STATIONS" "gp.php") :=
  ⟨rfl, by decide, by decide⟩

/-- C3 amended: the query-parameter order in the URL produced by BuildURL
is not insertion order but the canonical sorted order of
url.Values.Encode: the URL serializes the sorted permutation of the
insertion-order parameter list (selector key, FORMAT, then table flags),
its keys pairwise in ascending lexicographic order; the selector key comes
first only when it sorts before FORMAT. -/
theorem c3_amended_sorted_param_order (q : Query) (b ep k v : String)
    (hsel : singleSelector q = .ok (k, v)) (hep : ep ≠ "") :
    BuildURL q (some b) ep =
      .ok (resolveURL b ("/NORAD/elements/" ++ ep)
            (encodeParamList (List.insertionSort keyOrder (buildParams q k v ep)))) ∧
    (List.insertionSort keyOrder (buildParams q k v ep)).Pairwise keyOrder ∧
    (List.insertionSort keyOrder (buildParams q k v ep)).Perm (buildParams q k v ep) := by
  refine ⟨?_, List.sorted_insertionSort keyOrder _, List.perm_insertionSort keyOrder _⟩
  simp [BuildURL, hsel, hep, encodeValues]

/-- C3 amended, witness at the STATIONS query against gp.php. -/
theorem c3_amended_witness :
    singleSelector stationsQuery = .ok ("GROUP", "STATIONS") ∧
    ("gp.php" : String) ≠ "" ∧
    (BuildURL stationsQuery (some defaultBaseURL) "gp.php" =
      .ok (resolveURL defaultBaseURL ("/NORAD/elements/" ++ "gp.php")
            (encodeParamList
              (List.insertionSort keyOrder
                (buildParams stationsQuery "GROUP" "STATIONS" "gp.php")))) ∧
    (List.insertionSort keyOrder
      (buildParams stationsQuery "GROUP" "STATIONS" "gp.php")).Pairwise keyOrder ∧
    (List.insertionSort keyOrder
      (buildParams stationsQuery "GROUP" "STATIONS" "gp.php")).Perm
        (buildParams stationsQuery "GROUP" "STATIONS" "gp.php")) :=
  ⟨rfl, by decide,
   c3_amended_sorted_param_order stationsQuery defaultBaseURL "gp.php" "GROUP" "STATIONS"
     rfl (by decide)⟩

/-- C10 counterexample: with a cache configured and a 200 response that
carries no ETag header, the claim says the cache is left unwritten; the
code instead calls Put with the empty validator, so a successful response
without a validator does write the cache. -/
theorem c10_counterexample_put_without_validator :
    (fetchOnce cacheEmptyCfg (some okRespEnvNoEtag) stationsQuery "gp.php").result =
      .ok "abc".data ∧
    (fetchOnce cacheEmptyCfg (some okRespEnvNoEtag) stationsQuery "gp.php").puts =
      [("https://celestrak.org/NORAD/elements/gp.php?FORMAT=TLE&GROUP=STATIONS",
        "abc".data, "")] ∧
    (fetchOnce cacheEmptyCfg (some okRespEnvNoEtag) stationsQuery "gp.php").puts ≠ [] :=
  ⟨rfl, rfl, by decide⟩

/-- C7: a non-2xx, non-304 response makes fetchOnce fail with an
ErrorResponse carrying that response and a message that is the trimmed
first at-most-8-KiB of the body, or the status text when the trimmed body
is empty; and shouldRetry answers true for that ErrorResponse exactly when
the status is at least 500. -/
theorem c7_non2xx_error_response (cfg : Config) (env : AttemptEnv) (q : Query)
    (ep u : String) (r : HResp)
    (hctx : env.ctxErrAtStart = none)
    (hb : BuildURL q cfg.baseURL ep = .ok u)
    (htr : env.transport = .resp r)
    (hs : r.statusCode < 200 ∨ 299 < r.statusCode)
    (h304 : r.statusCode ≠ 304) :
    (fetchOnce cfg (some env) q ep).result =
      .error (.errorResponse r
        (if trimList (r.body.take 8192) = [] then r.status
         else String.mk (trimList (r.body.take 8192)))) ∧
    shouldRetry (some (.errorResponse r
        (if trimList (r.body.take 8192) = [] then r.status
         else String.mk (trimList (r.body.take 8192))))) = decide (500 ≤ r.statusCode) := by
  constructor
  · simp only [fetchOnce, hctx, hb, htr]
    rw [if_neg h304, if_pos hs]
  · rfl

/-- A 404 response whose body trims to a non-empty message. -/
def resp404 : HResp := ⟨404, "404 Not Found", "", " not found ".data⟩

/-- One attempt observing a live context and the 404 response. -/
def notFoundEnv : AttemptEnv := ⟨none, none, .resp resp404⟩

/-- C7, witness at a 404 with body that trims to not found. -/
theorem c7_witness :
    (resp404.statusCode < 200 ∨ 299 < resp404.statusCode) ∧ resp404.statusCode ≠ 304 ∧
    ((fetchOnce defaultConfig (some notFoundEnv) stationsQuery "gp.php").result =
      .error (.errorResponse resp404
        (if trimList (resp404.body.take 8192) = [] then resp404.status
         else String.mk (trimList (resp404.body.take 8192)))) ∧
     shouldRetry (some (.errorResponse resp404
        (if trimList (resp404.body.take 8192) = [] then resp404.status
         else String.mk (trimList (resp404.body.take 8192))))) =
       decide (500 ≤ resp404.statusCode)) :=
  ⟨by decide, by decide,
   c7_non2xx_error_response defaultConfig notFoundEnv stationsQuery "gp.php"
     "https://celestrak.org/NORAD/elements/gp.php?FORMAT=TLE&GROUP=STATIONS" resp404
     rfl rfl rfl (by decide) (by decide)⟩

/-- C8: on a 304 response, fetchOnce returns the cached bytes unchanged
and writes nothing when the pre-request cache lookup found an entry for
the URL key; with no cached entry it fails with the protocol-violation
ErrorResponse, which shouldRetry classifies as not retryable. -/
theorem c8_not_modified (cfg : Config) (env : AttemptEnv) (q : Query) (ep u : String)
    (r : HResp) (f : String → Option (List Char × String))
    (hctx : env.ctxErrAtStart = none)
    (hb : BuildURL q cfg.baseURL ep = .ok u)
    (hcache : cfg.cache = some f)
    (htr : env.transport = .resp r)
    (h304 : r.statusCode = 304) :
    (∀ data etag, f u = some (data, etag) →
      (fetchOnce cfg (some env) q ep).result = .ok data ∧
      (fetchOnce cfg (some env) q ep).puts = []) ∧
    (f u = none →
      (fetchOnce cfg (some env) q ep).result =
        .error (.errorResponse r "304 Not Modified but no cached body available") ∧
      (fetchOnce cfg (some env) q ep).puts = [] ∧
      shouldRetry
        (some (.errorResponse r "304 Not Modified but no cached body available")) = false) := by
  constructor
  · intro data etag hf
    constructor <;>
      simp only [fetchOnce, hctx, hb, hcache, htr, hf, if_pos h304]
  · intro hf
    refine ⟨?_, ?_, ?_⟩
    · simp only [fetchOnce, hctx, hb, hcache, htr, hf, if_pos h304]
    · simp only [fetchOnce, hctx, hb, hcache, htr, hf, if_pos h304]
    · simp [shouldRetry, IsQueryError, IsServerError, h304]

/-- A 304 response with empty body. -/
def resp304 : HResp := ⟨304, "304 Not Modified", "", []⟩

/-- One attempt observing a live context and the 304 response. -/
def notModifiedEnv : AttemptEnv := ⟨none, none, .resp resp304⟩

/-- A cache holding cached bytes for the STATIONS gp.php URL. -/
def stationsCacheFun : String → Option (List Char × String) :=
  fun k =>
    if k = "https://celestrak.org/NORAD/elements/gp.php?FORMAT=TLE&GROUP=STATIONS" then
      some ("cached".data, "v1")
    else none

/-- The default client with the STATIONS entry cached. -/
def stationsCacheCfg : Config :=
  { defaultConfig with cache := some stationsCacheFun }

/-- C8, witness: the cached entry is returned on 304 with no write. -/
theorem c8_witness :
    stationsCacheFun "https://celestrak.org/NORAD/elements/gp.php?FORMAT=TLE&GROUP=STATIONS" =
      some ("cached".data, "v1") ∧
    ((fetchOnce stationsCacheCfg (some notModifiedEnv) stationsQuery "gp.php").result =
      .ok "cached".data ∧
     (fetchOnce stationsCacheCfg (some notModifiedEnv) stationsQuery "gp.php").puts = []) :=
  ⟨rfl,
   (c8_not_modified stationsCacheCfg notModifiedEnv stationsQuery "gp.php"
      "https://celestrak.org/NORAD/elements/gp.php?FORMAT=TLE&GROUP=STATIONS" resp304
      stationsCacheFun rfl rfl rfl rfl rfl).1 "cached".data "v1" rfl⟩

/-- C9: on a 2xx response, a body strictly larger than the 100 MiB cap
(one more byte is available after the cap-limited read) fails with the
response-too-large ErrorResponse, while a body of exactly the cap size
with no further bytes succeeds and returns the full body unchanged. -/
theorem c9_size_cap (cfg : Config) (env : AttemptEnv) (q : Query) (ep u : String)
    (r : HResp)
    (hctx : env.ctxErrAtStart = none)
    (hb : BuildURL q cfg.baseURL ep = .ok u)
    (htr : env.transport = .resp r)
    (h2xx : 200 ≤ r.statusCode ∧ r.statusCode ≤ 299) :
    (maxResponseSize < r.body.length →
      (fetchOnce cfg (some env) q ep).result =
        .error (.errorResponse r
          ("response too large (exceeds " ++ toString maxResponseSize ++ " bytes)"))) ∧
    (r.body.length = maxResponseSize →
      (fetchOnce cfg (some env) q ep).result = .ok r.body) := by
  have hnot304 : ¬ r.statusCode = 304 := by omega
  have hnoterr : ¬ (r.statusCode < 200 ∨ 299 < r.statusCode) := by omega
  constructor
  · intro hbig
    simp only [fetchOnce, hctx, hb, htr]
    rw [if_neg hnot304, if_neg hnoterr, if_pos ?hcond]
    case hcond =>
      constructor
      · rw [List.length_take]
        omega
      · rw [ne_eq, List.drop_eq_nil_iff]
        omega
  · intro hexact
    have htake : r.body.take maxResponseSize = r.body :=
      List.take_of_length_le (le_of_eq hexact)
    have hdrop : r.body.drop maxResponseSize = [] :=
      List.drop_eq_nil_iff.mpr (le_of_eq hexact)
    have hmaxpos : maxResponseSize ≠ 0 := by
      simp [maxResponseSize]
    simp only [fetchOnce, hctx, hb, htr]
    rw [if_neg hnot304, if_neg hnoterr, htake,
      if_neg (fun h => h.2 hdrop), if_neg (fun h => hmaxpos (hexact ▸ h))]
    cases cfg.cache <;> rfl

/-- A 200 response whose body is one byte over the cap. -/
def bigBodyResp : HResp := ⟨200, "200 OK", "", List.replicate (maxResponseSize + 1) 'x'⟩

/-- One attempt observing a live context and the over-cap response. -/
def bigBodyEnv : AttemptEnv := ⟨none, none, .resp bigBodyResp⟩

/-- A 200 response whose body is exactly the cap size. -/
def exactBodyResp : HResp := ⟨200, "200 OK", "", List.replicate maxResponseSize 'x'⟩

/-- One attempt observing a live context and the exactly-at-cap response. -/
def exactBodyEnv : AttemptEnv := ⟨none, none, .resp exactBodyResp⟩

/-- C9, witness at a body one byte over the cap and a body exactly at the
cap. -/
theorem c9_witness :
    (maxResponseSize < bigBodyResp.body.length ∧
      (fetchOnce defaultConfig (some bigBodyEnv) stationsQuery "gp.php").result =
        .error (.errorResponse bigBodyResp
          ("response too large (exceeds " ++ toString maxResponseSize ++ " bytes)"))) ∧
    (exactBodyResp.body.length = maxResponseSize ∧
      (fetchOnce defaultConfig (some exactBodyEnv) stationsQuery "gp.php").result =
        .ok exactBodyResp.body) :=
  ⟨⟨by simp [bigBodyResp],
    (c9_size_cap defaultConfig bigBodyEnv stationsQuery "gp.php"
      "https://celestrak.org/NORAD/elements/gp.php?FORMAT=TLE&GROUP=STATIONS" bigBodyResp
      rfl rfl rfl (by decide)).1 (by simp [bigBodyResp])⟩,
   ⟨by simp [exactBodyResp],
    (c9_size_cap defaultConfig exactBodyEnv stationsQuery "gp.php"
      "https://celestrak.org/NORAD/elements/gp.php?FORMAT=TLE&GROUP=STATIONS" exactBodyResp
      rfl rfl rfl (by decide)).2 (by simp [exactBodyResp])⟩⟩

/-- C10 amended: with a cache configured, fetchOnce reads the cache once,
at the URL key, before the request, whatever the outcome; and it writes
exactly one entry, keyed by the URL, with the returned body and the
trimmed ETag header (which may be empty: a successful response without a
validator still writes), precisely on the successful non-cached (non-304)
2xx path, and writes nothing on every other path. -/
theorem c10_amended_cache_lifecycle (cfg : Config) (env : AttemptEnv) (q : Query)
    (ep u : String) (f : String → Option (List Char × String))
    (hcache : cfg.cache = some f)
    (hctx : env.ctxErrAtStart = none)
    (hb : BuildURL q cfg.baseURL ep = .ok u) :
    (fetchOnce cfg (some env) q ep).gets = [u] ∧
    (∀ r body, env.transport = .resp r → r.statusCode ≠ 304 →
      (fetchOnce cfg (some env) q ep).result = .ok body →
      (fetchOnce cfg (some env) q ep).puts = [(u, body, trimSpace r.etag)]) ∧
    ((fetchOnce cfg (some env) q ep).puts ≠ [] →
      ∃ r body, env.transport = .resp r ∧ 200 ≤ r.statusCode ∧ r.statusCode ≤ 299 ∧
        r.statusCode ≠ 304 ∧ (fetchOnce cfg (some env) q ep).result = .ok body ∧
        (fetchOnce cfg (some env) q ep).puts = [(u, body, trimSpace r.etag)]) := by
  rcases htr : env.transport with _ | r
  case fail =>
    refine ⟨?_, ?_, ?_⟩
    · cases hdo : env.ctxErrAtDoFail <;>
        simp [fetchOnce, hctx, hb, hcache, htr, hdo]
    · intro r body htr2 _ _
      exact absurd htr2 (by simp)
    · intro hputs
      exfalso
      apply hputs
      cases hdo : env.ctxErrAtDoFail <;>
        simp [fetchOnce, hctx, hb, hcache, htr, hdo]
  case resp =>
    by_cases h304 : r.statusCode = 304
    · refine ⟨?_, ?_, ?_⟩
      · cases hf : f u <;>
          simp [fetchOnce, hctx, hb, hcache, htr, hf, h304]
      · intro r2 body htr2 h3042 _
        cases htr2
        exact absurd h304 h3042
      · intro hputs
        exfalso
        apply hputs
        rcases hf : f u with _ | ⟨data, etag⟩ <;>
          simp [fetchOnce, hctx, hb, hcache, htr, hf, h304]
    · by_cases herr : r.statusCode < 200 ∨ 299 < r.statusCode
      · refine ⟨?_, ?_, ?_⟩
        · simp only [fetchOnce, hctx, hb, hcache, htr]
          rw [if_neg h304, if_pos herr]
          simp
        · intro r2 body htr2 _ hres
          cases htr2
          revert hres
          simp only [fetchOnce, hctx, hb, hcache, htr]
          rw [if_neg h304, if_pos herr]
          simp
        · intro hputs
          exfalso
          apply hputs
          simp only [fetchOnce, hctx, hb, hcache, htr]
          rw [if_neg h304, if_pos herr]
      · by_cases hbig : (r.body.take maxResponseSize).length = maxResponseSize ∧
          r.body.drop maxResponseSize ≠ []
        · refine ⟨?_, ?_, ?_⟩
          · simp only [fetchOnce, hctx, hb, hcache, htr]
            rw [if_neg h304, if_neg herr, if_pos hbig]
            simp
          · intro r2 body htr2 _ hres
            cases htr2
            revert hres
            simp only [fetchOnce, hctx, hb, hcache, htr]
            rw [if_neg h304, if_neg herr, if_pos hbig]
            simp
          · intro hputs
            exfalso
            apply hputs
            simp only [fetchOnce, hctx, hb, hcache, htr]
            rw [if_neg h304, if_neg herr, if_pos hbig]
        · by_cases hempty : (r.body.take maxResponseSize).length = 0
          · refine ⟨?_, ?_, ?_⟩
            · simp only [fetchOnce, hctx, hb, hcache, htr]
              rw [if_neg h304, if_neg herr, if_neg hbig, if_pos hempty]
              simp
            · intro r2 body htr2 _ hres
              cases htr2
              revert hres
              simp only [fetchOnce, hctx, hb, hcache, htr]
              rw [if_neg h304, if_neg herr, if_neg hbig, if_pos hempty]
              simp
            · intro hputs
              exfalso
              apply hputs
              simp only [fetchOnce, hctx, hb, hcache, htr]
              rw [if_neg h304, if_neg herr, if_neg hbig, if_pos hempty]
          · refine ⟨?_, ?_, ?_⟩
            · simp only [fetchOnce, hctx, hb, hcache, htr]
              rw [if_neg h304, if_neg herr, if_neg hbig, if_neg hempty]
              simp
            · intro r2 body htr2 _ hres
              cases htr2
              revert hres
              simp only [fetchOnce, hctx, hb, hcache, htr]
              rw [if_neg h304, if_neg herr, if_neg hbig, if_neg hempty]
              simp only [Except.ok.injEq]
              intro hres
              rw [hres]
            · intro _
              refine ⟨r, r.body.take maxResponseSize, rfl, by omega, by omega, h304, ?_, ?_⟩
              · simp only [fetchOnce, hctx, hb, hcache, htr]
                rw [if_neg h304, if_neg herr, if_neg hbig, if_neg hempty]
              · simp only [fetchOnce, hctx, hb, hcache, htr]
                rw [if_neg h304, if_neg herr, if_neg hbig, if_neg hempty]

/-- A 200 response with a padded ETag header. -/
def etagResp : HResp := ⟨200, "200 OK", "  W-v2  ", "fresh".data⟩

/-- One attempt observing a live context and the 200 response with an
ETag. -/
def etagEnv : AttemptEnv := ⟨none, none, .resp etagResp⟩

/-- C10 amended, witness: the cache is read at the URL key, and the 200
response with an ETag writes the body with the trimmed validator. -/
theorem c10_amended_witness :
    stationsCacheCfg.cache = some stationsCacheFun ∧
    ((fetchOnce stationsCacheCfg (some etagEnv) stationsQuery "gp.php").gets =
      ["https://celestrak.org/NORAD/elements/gp.php?FORMAT=TLE&GROUP=STATIONS"] ∧
     (fetchOnce stationsCacheCfg (some etagEnv) stationsQuery "gp.php").puts =
      [("https://celestrak.org/NORAD/elements/gp.php?FORMAT=TLE&GROUP=STATIONS",
        "fresh".data, trimSpace etagResp.etag)]) :=
  ⟨rfl,
   (c10_amended_cache_lifecycle stationsCacheCfg etagEnv stationsQuery "gp.php"
      "https://celestrak.org/NORAD/elements/gp.php?FORMAT=TLE&GROUP=STATIONS"
      stationsCacheFun rfl rfl rfl).1,
   (c10_amended_cache_lifecycle stationsCacheCfg etagEnv stationsQuery "gp.php"
      "https://celestrak.org/NORAD/elements/gp.php?FORMAT=TLE&GROUP=STATIONS"
      stationsCacheFun rfl rfl rfl).2.1 etagResp "fresh".data rfl (by decide) (by rfl)⟩

/-- The five selector keys, in field order. -/
def selectorKeys : List String := ["CATNR", "INTDES", "GROUP", "NAME", "SPECIAL"]

/-- The selector fields that are non-empty after trimming, as (key, trimmed
value) pairs in field order. -/
def activeSelectors (q : Query) : List (String × String) :=
  ([("CATNR", trimSpace q.CATNR), ("INTDES", trimSpace q.INTDES),
    ("GROUP", trimSpace q.GROUP), ("NAME", trimSpace q.NAME),
    ("SPECIAL", trimSpace q.SPECIAL)]).filter (fun p => ¬ p.2 = "")

/-- Replacing one key of an association list leaves lookups of other keys
unchanged. -/
theorem lookup_map_replace (k v k2 : String) (h : k2 ≠ k) :
    ∀ vs : Values,
      (vs.map (fun p => if p.1 = k then (k, v) else p)).lookup k2 = vs.lookup k2
  | [] => rfl
  | (pk, pv) :: ps => by
    have hbeq : (k2 == k) = false := by simpa using h
    by_cases hp : pk = k
    · rw [List.map_cons, if_pos hp, List.lookup_cons, List.lookup_cons, hbeq,
        show (k2 == pk) = false by simpa [hp] using h]
      exact lookup_map_replace k v k2 h ps
    · rw [List.map_cons, if_neg hp, List.lookup_cons, List.lookup_cons]
      cases hk2 : k2 == pk
      · exact lookup_map_replace k v k2 h ps
      · rfl

/-- Appending a fresh key leaves lookups of other keys unchanged. -/
theorem lookup_append_single (k v k2 : String) (h : k2 ≠ k) :
    ∀ vs : Values, (vs ++ [(k, v)]).lookup k2 = vs.lookup k2
  | [] => by
    have hbeq : (k2 == k) = false := by simpa using h
    rw [List.nil_append, List.lookup_cons, hbeq, List.lookup_nil]
  | (pk, pv) :: ps => by
    rw [List.cons_append, List.lookup_cons, List.lookup_cons]
    cases hk2 : k2 == pk
    · exact lookup_append_single k v k2 h ps
    · rfl

/-- url.Values.Set does not change lookups of other keys. -/
theorem lookup_valuesSet_ne (vs : Values) (k v k2 : String) (h : k2 ≠ k) :
    (valuesSet vs k v).lookup k2 = vs.lookup k2 := by
  unfold valuesSet
  split
  · exact lookup_map_replace k v k2 h vs
  · exact lookup_append_single k v k2 h vs

/-- addTableFlags does not change lookups of keys that are not table-flag
parameter names. -/
theorem lookup_addTableFlags (q : Query) (params : Values) (k2 : String)
    (h1 : k2 ≠ "BSTAR") (h2 : k2 ≠ "SHOW-OPS") (h3 : k2 ≠ "OLDEST")
    (h4 : k2 ≠ "DOCKED") (h5 : k2 ≠ "MOVERS") :
    (addTableFlags q params).lookup k2 = params.lookup k2 := by
  simp only [addTableFlags]
  split <;> split <;> split <;> split <;> split <;>
    simp [lookup_valuesSet_ne, h1, h2, h3, h4, h5]

/-- singleSelector computes the unique active selector: it fails with the
missing-selector QueryError when no field survives trimming, returns the
one surviving (key, value) pair, and fails with the ambiguity QueryError
when two or more fields survive. -/
theorem singleSelector_spec (q : Query) :
    singleSelector q =
      match activeSelectors q with
      | [] => .error (.queryError missingSelectorMsg)
      | [p] => .ok p
      | _ :: _ :: _ => .error (.queryError ambiguousSelectorMsg) := by
  by_cases h1 : trimSpace q.CATNR = "" <;>
    by_cases h2 : trimSpace q.INTDES = "" <;>
      by_cases h3 : trimSpace q.GROUP = "" <;>
        by_cases h4 : trimSpace q.NAME = "" <;>
          by_cases h5 : trimSpace q.SPECIAL = "" <;>
            simp_all [activeSelectors, singleSelector, selSet]

/-- Every active selector key is one of the five selector keys. -/
theorem activeSelectors_keys (q : Query) (p : String × String)
    (hp : p ∈ activeSelectors q) : p.1 ∈ selectorKeys := by
  simp only [activeSelectors, List.mem_filter, List.mem_cons,
    List.not_mem_nil, or_false] at hp
  rcases hp.1 with h | h | h | h | h <;> subst h <;> simp [selectorKeys]

/-- A selector key is distinct from FORMAT and from every table-flag key. -/
theorem selectorKeys_fresh (k : String) (hk : k ∈ selectorKeys) :
    k ≠ "FORMAT" ∧ k ≠ "BSTAR" ∧ k ≠ "SHOW-OPS" ∧ k ≠ "OLDEST" ∧
    k ≠ "DOCKED" ∧ k ≠ "MOVERS" := by
  simp only [selectorKeys, List.mem_cons, List.not_mem_nil, or_false] at hk
  rcases hk with rfl | rfl | rfl | rfl | rfl <;> refine ⟨?_, ?_, ?_, ?_, ?_, ?_⟩ <;> decide

/-- The two parameters BuildURL always inserts, given that the selector
key is none of the later keys. -/
theorem buildParams_base (q : Query) (k v ep : String) (hkF : k ≠ "FORMAT") :
    buildParams q k v ep =
      if ep = "table.php" then addTableFlags q [(k, v), ("FORMAT", formatOrDefault q)]
      else [(k, v), ("FORMAT", formatOrDefault q)] := by
  have h1 : valuesSet [] k v = [(k, v)] := rfl
  have h2 : valuesSet [(k, v)] "FORMAT" (formatOrDefault q) =
      [(k, v), ("FORMAT", formatOrDefault q)] := by
    simp [valuesSet, hkF]
  simp only [buildParams, h1, h2]

/-- C4: with a non-nil base and non-empty endpoint, a query whose trimmed
selector fields yield exactly one active selector builds successfully,
the parameters containing exactly that selector key (mapped to the trimmed
value) plus FORMAT and no other selector key; zero active selectors fail
with the missing-selector QueryError, and two or more fail with the
ambiguous-selector QueryError. -/
theorem c4_selector_cardinality (q : Query) (b ep : String) (hep : ep ≠ "") :
    (∀ k v, activeSelectors q = [(k, v)] →
      k ∈ selectorKeys ∧
      BuildURL q (some b) ep =
        .ok (resolveURL b ("/NORAD/elements/" ++ ep)
              (encodeValues (buildParams q k v ep))) ∧
      (buildParams q k v ep).lookup k = some v ∧
      (buildParams q k v ep).lookup "FORMAT" = some (formatOrDefault q) ∧
      (∀ k2, k2 ∈ selectorKeys → k2 ≠ k → (buildParams q k v ep).lookup k2 = none)) ∧
    (activeSelectors q = [] →
      BuildURL q (some b) ep = .error (.queryError missingSelectorMsg)) ∧
    (2 ≤ (activeSelectors q).length →
      BuildURL q (some b) ep = .error (.queryError ambiguousSelectorMsg)) := by
  have hss := singleSelector_spec q
  refine ⟨?_, ?_, ?_⟩
  · intro k v hact
    rw [hact] at hss
    have hk : k ∈ selectorKeys := by
      have hmem := activeSelectors_keys q (k, v) (by rw [hact]; exact List.mem_singleton_self _)
      simpa using hmem
    obtain ⟨hkF, hb1, hb2, hb3, hb4, hb5⟩ := selectorKeys_fresh k hk
    have hbp := buildParams_base q k v ep hkF
    have hselfk : (k == k) = true := by simp
    refine ⟨hk, ?_, ?_, ?_, ?_⟩
    · simp [BuildURL, hss, hep]
    · rw [hbp]
      split
      · rw [lookup_addTableFlags q _ k hb1 hb2 hb3 hb4 hb5]
        simp [List.lookup]
      · simp [List.lookup]
    · have hF : ("FORMAT" == k) = false := by simpa using Ne.symm hkF
      rw [hbp]
      split
      · rw [lookup_addTableFlags q _ "FORMAT" (by decide) (by decide) (by decide)
          (by decide) (by decide)]
        simp [List.lookup, hF]
      · simp [List.lookup, hF]
    · intro k2 hk2 hne
      obtain ⟨h2F, h2b1, h2b2, h2b3, h2b4, h2b5⟩ := selectorKeys_fresh k2 hk2
      have hK : (k2 == k) = false := by simpa using hne
      have hFk2 : (k2 == "FORMAT") = false := by simpa using h2F
      rw [hbp]
      split
      · rw [lookup_addTableFlags q _ k2 h2b1 h2b2 h2b3 h2b4 h2b5]
        simp [List.lookup, hK, hFk2]
      · simp [List.lookup, hK, hFk2]
  · intro hact
    rw [hact] at hss
    simp [BuildURL, hss, hep]
  · intro hlen
    rcases hact : activeSelectors q with _ | ⟨p, _ | ⟨p2, rest⟩⟩
    · rw [hact] at hlen
      simp at hlen
    · rw [hact] at hlen
      simp at hlen
    · rw [hact] at hss
      simp [BuildURL, hss, hep]

/-- C4, witness at the STATIONS query against gp.php. -/
theorem c4_witness :
    ("gp.php" : String) ≠ "" ∧
    activeSelectors stationsQuery = [("GROUP", "STATIONS")] ∧
    ("GROUP" ∈ selectorKeys ∧
     BuildURL stationsQuery (some defaultBaseURL) "gp.php" =
       .ok (resolveURL defaultBaseURL ("/NORAD/elements/" ++ "gp.php")
             (encodeValues (buildParams stationsQuery "GROUP" "STATIONS" "gp.php"))) ∧
     (buildParams stationsQuery "GROUP" "STATIONS" "gp.php").lookup "GROUP" =
       some "STATIONS" ∧
     (buildParams stationsQuery "GROUP" "STATIONS" "gp.php").lookup "FORMAT" =
       some (formatOrDefault stationsQuery) ∧
     (∀ k2, k2 ∈ selectorKeys → k2 ≠ "GROUP" →
       (buildParams stationsQuery "GROUP" "STATIONS" "gp.php").lookup k2 = none)) :=
  ⟨by decide, rfl,
   (c4_selector_cardinality stationsQuery defaultBaseURL "gp.php" (by decide)).1
     "GROUP" "STATIONS" rfl⟩

/-- int64wrap is the identity on values inside the int64 range. -/
theorem int64wrap_eq_self (x : Int) (h0 : 0 ≤ x) (h1 : x < 2 ^ 63) :
    int64wrap x = x := by
  have e1 : (2 : Int) ^ 63 = 9223372036854775808 := by norm_num
  have e2 : (2 : Int) ^ 64 = 18446744073709551616 := by norm_num
  rw [e1] at h1
  unfold int64wrap
  rw [e1, e2, Int.emod_eq_of_lt (by omega) (by omega)]
  omega

/-- The successive fully completed waits the retry loop performs, starting
from a given delay and doubling (with int64 wrap) after each wait. -/
def waitsSeq (delay : Int) : Nat → List Int
  | 0 => []
  | n + 1 => delay :: waitsSeq (int64wrap (2 * delay)) n

/-- Without int64 overflow the waits are the plain geometric sequence. -/
theorem waitsSeq_no_overflow (n : Nat) : ∀ d : Int, 0 ≤ d → d * 2 ^ n < 2 ^ 63 →
    waitsSeq d n = (List.range n).map (fun i => d * 2 ^ i) := by
  induction n with
  | zero =>
    intro d _ _
    rfl
  | succ n ih =>
    intro d h0 h
    have hpow1 : (1 : Int) ≤ 2 ^ n := by
      have hh := pow_le_pow_left₀ (by norm_num : (0 : Int) ≤ 1) (by norm_num : (1 : Int) ≤ 2) n
      rwa [one_pow] at hh
    have hle : 2 * d ≤ 2 * d * 2 ^ n := le_mul_of_one_le_right (by linarith) hpow1
    have heq : 2 * d * 2 ^ n = d * 2 ^ (n + 1) := by ring
    have hw : 2 * d < 2 ^ 63 := by linarith
    have hwrap : int64wrap (2 * d) = 2 * d := int64wrap_eq_self _ (by linarith) hw
    have hih : 2 * d * 2 ^ n < 2 ^ 63 := by linarith
    rw [waitsSeq, hwrap, ih (2 * d) (by linarith) hih, List.range_succ_eq_map]
    simp only [List.map_cons, pow_zero, mul_one, List.map_map]
    congr 1
    refine List.map_congr_left (fun i _ => ?_)
    simp only [Function.comp_apply]
    rw [pow_succ]
    ring

/-- Sum of the geometric wait sequence. -/
theorem geomSum_list (d : Int) : ∀ n : Nat,
    ((List.range n).map (fun i => d * 2 ^ i)).sum = d * (2 ^ n - 1)
  | 0 => by simp
  | n + 1 => by
    rw [List.range_succ, List.map_append, List.sum_append, geomSum_list d n]
    simp only [List.map_cons, List.map_nil, List.sum_cons, List.sum_nil]
    ring

/-- A live context over a failing transport makes fetchOnce fail with the
wrapped transport error. -/
theorem fetchOnce_transport_fail (cfg : Config) (q : Query) (ep u : String)
    (hb : BuildURL q cfg.baseURL ep = .ok u) :
    (fetchOnce cfg (some ⟨none, none, .fail⟩) q ep).result =
      .error (.wrapf "request failed" .transportFailure) := by
  simp [fetchOnce, hb]

/-- The wrapped transport error is retryable. -/
theorem shouldRetry_transport :
    shouldRetry (some (.wrapf "request failed" .transportFailure)) = true := rfl

/-- When every remaining iteration sees a live context and a failing
transport, the loop runs its whole remaining budget and exhausts. -/
theorem fetchLoop_all_fail (cfg : Config) (env : FetchEnv) (q : Query) (ep u : String)
    (hb : BuildURL q cfg.baseURL ep = .ok u)
    (henv : ∀ i, env.ctxErrBefore i = none ∧ env.ctxDuringWait i = none ∧
      env.attempt i = ⟨none, none, .fail⟩) :
    ∀ (fuel i : Nat) (delay : Int), 1 ≤ i →
      fetchLoop cfg (some env) q ep fuel i delay
          (some (.wrapf "request failed" .transportFailure)) =
        ⟨.err (exhaustedErr cfg.maxRetries
            (some (.wrapf "request failed" .transportFailure))),
         fuel, waitsSeq delay fuel⟩ := by
  intro fuel
  induction fuel with
  | zero =>
    intro i delay _
    rfl
  | succ fuel ih =>
    intro i delay hi
    have hne : ¬ i = 0 := by omega
    have hres := fetchOnce_transport_fail cfg q ep u hb
    simp only [fetchLoop, (henv i).1, if_neg hne, (henv i).2.1, (henv i).2.2, hres,
      shouldRetry_transport, if_true]
    rw [ih (i + 1) (int64wrap (2 * delay)) (by omega)]
    rfl

/-- C5: with maxRetries m and initial delay d (in int64 range), a
transport failure on every attempt makes fetch perform exactly m plus one
attempts, complete the waits d, 2d, 4d and so on (total d times two to the
m minus one), and return the composite max-retries error wrapping the last
transport error. -/
theorem c5_retry_exhaustion (cfg : Config) (env : FetchEnv) (q : Query) (ep u : String)
    (m : Nat) (d : Int)
    (hm : cfg.maxRetries = (m : Int)) (hd : cfg.retryDelay = d)
    (h0 : 0 ≤ d) (hrange : d * 2 ^ m < 2 ^ 63)
    (hb : BuildURL q cfg.baseURL ep = .ok u)
    (henv : ∀ i, env.ctxErrBefore i = none ∧ env.ctxDuringWait i = none ∧
      env.attempt i = ⟨none, none, .fail⟩) :
    fetch cfg (some env) q ep =
      ⟨.err (.wrapf ("max retries (" ++ toString (m : Int) ++ ") exceeded")
          (.wrapf "request failed" .transportFailure)),
       m + 1, (List.range m).map (fun i => d * 2 ^ i)⟩ ∧
    ((List.range m).map (fun i => d * 2 ^ i)).sum = d * (2 ^ m - 1) := by
  refine ⟨?_, geomSum_list d m⟩
  have htn : (cfg.maxRetries + 1).toNat = m + 1 := by
    rw [hm]
    omega
  have hres := fetchOnce_transport_fail cfg q ep u hb
  show fetchLoop cfg (some env) q ep ((cfg.maxRetries + 1).toNat) 0 cfg.retryDelay none = _
  rw [htn, hd]
  simp only [fetchLoop, (henv 0).1, if_pos rfl, (henv 0).2.2, hres,
    shouldRetry_transport, if_true]
  rw [fetchLoop_all_fail cfg env q ep u hb henv m 1 d (by omega),
    waitsSeq_no_overflow m d h0 hrange, hm]
  rfl

/-- The configuration used by the retry witnesses: two retries, delay 3. -/
def c5cfg : Config := { defaultConfig with maxRetries := 2, retryDelay := 3 }

/-- C5, witness: maxRetries 2 and delay 3 give three attempts, waits 3 and
6 summing to 9, and the composite error. -/
theorem c5_witness :
    c5cfg.maxRetries = ((2 : Nat) : Int) ∧ c5cfg.retryDelay = (3 : Int) ∧
    (0 : Int) ≤ 3 ∧ (3 : Int) * 2 ^ 2 < 2 ^ 63 ∧
    BuildURL stationsQuery c5cfg.baseURL "gp.php" =
      .ok "https://celestrak.org/NORAD/elements/gp.php?FORMAT=TLE&GROUP=STATIONS" ∧
    (fetch c5cfg (some transportFailEnv) stationsQuery "gp.php" =
      ⟨.err (.wrapf ("max retries (" ++ toString ((2 : Nat) : Int) ++ ") exceeded")
          (.wrapf "request failed" .transportFailure)),
       2 + 1, (List.range 2).map (fun i => (3 : Int) * 2 ^ i)⟩ ∧
     ((List.range 2).map (fun i => (3 : Int) * 2 ^ i)).sum = 3 * (2 ^ 2 - 1)) :=
  ⟨rfl, rfl, by norm_num, by norm_num, rfl,
   c5_retry_exhaustion c5cfg transportFailEnv stationsQuery "gp.php"
     "https://celestrak.org/NORAD/elements/gp.php?FORMAT=TLE&GROUP=STATIONS" 2 3
     rfl rfl (by norm_num) (by norm_num) rfl (fun _ => ⟨rfl, rfl, rfl⟩)⟩

/-- If the first k iterations starting at index i (at least 1) see a live
context and a failing transport, and the context fires at iteration i + k
(at the loop-top check, or during the wait), the loop returns the
context-cancellation error having performed exactly k further attempts. -/
theorem fetchLoop_ctx_fire_aux (cfg : Config) (env : FetchEnv) (q : Query) (ep u : String)
    (hb : BuildURL q cfg.baseURL ep = .ok u) :
    ∀ (k fuel i : Nat) (delay : Int) (le0 : Option GoErr), 1 ≤ i → k + 1 ≤ fuel →
      (∀ j, j < k → env.ctxErrBefore (i + j) = none ∧ env.ctxDuringWait (i + j) = none ∧
        env.attempt (i + j) = ⟨none, none, .fail⟩) →
      ((∀ ce, env.ctxErrBefore (i + k) = some ce →
          (fetchLoop cfg (some env) q ep fuel i delay le0).result =
            .err (.wrapf "context cancelled" (.ctxFailure ce)) ∧
          (fetchLoop cfg (some env) q ep fuel i delay le0).attempts = k) ∧
       (∀ ce, env.ctxErrBefore (i + k) = none → env.ctxDuringWait (i + k) = some ce →
          (fetchLoop cfg (some env) q ep fuel i delay le0).result =
            .err (.wrapf "context cancelled during retry" (.ctxFailure ce)) ∧
          (fetchLoop cfg (some env) q ep fuel i delay le0).attempts = k)) := by
  intro k
  induction k with
  | zero =>
    intro fuel i delay le0 hi hfuel hprev
    obtain ⟨fuel, rfl⟩ : ∃ f, fuel = f + 1 := ⟨fuel - 1, by omega⟩
    have hne : ¬ i = 0 := by omega
    constructor
    · intro ce hce
      rw [Nat.add_zero] at hce
      constructor <;> simp only [fetchLoop, hce]
    · intro ce hnone hsome
      rw [Nat.add_zero] at hnone hsome
      constructor <;> simp only [fetchLoop, hnone, if_neg hne, hsome]
  | succ k ih =>
    intro fuel i delay le0 hi hfuel hprev
    obtain ⟨fuel, rfl⟩ : ∃ f, fuel = f + 1 := ⟨fuel - 1, by omega⟩
    have h0 := (hprev 0 (by omega)).1
    have h1 := (hprev 0 (by omega)).2.1
    have h2 := (hprev 0 (by omega)).2.2
    rw [Nat.add_zero] at h0 h1 h2
    have hne : ¬ i = 0 := by omega
    have hres := fetchOnce_transport_fail cfg q ep u hb
    have hih := ih fuel (i + 1) (int64wrap (2 * delay))
        (some (.wrapf "request failed" .transportFailure)) (by omega) (by omega)
        (fun j hj => by
          have hpj := hprev (j + 1) (by omega)
          rwa [show i + (j + 1) = i + 1 + j by omega] at hpj)
    constructor
    · intro ce hce
      rw [show i + (k + 1) = i + 1 + k by omega] at hce
      have hfire := hih.1 ce hce
      constructor <;>
        simp only [fetchLoop, h0, if_neg hne, h1, h2, hres,
          shouldRetry_transport, if_true]
      · exact hfire.1
      · rw [hfire.2]
    · intro ce hnone hsome
      rw [show i + (k + 1) = i + 1 + k by omega] at hnone hsome
      have hfire := hih.2 ce hnone hsome
      constructor <;>
        simp only [fetchLoop, h0, if_neg hne, h1, h2, hres,
          shouldRetry_transport, if_true]
      · exact hfire.1
      · rw [hfire.2]

/-- C6: if every attempt up to index k fails with a retryable transport
error and the context completes at iteration k, before the attempt starts
or during the wait preceding it, fetch returns the context-cancellation
error immediately and performs exactly k attempts, never exhausting the
remaining retry budget. -/
theorem c6_cancellation_aborts (cfg : Config) (env : FetchEnv) (q : Query) (ep u : String)
    (m k : Nat) (hm : cfg.maxRetries = (m : Int))
    (hb : BuildURL q cfg.baseURL ep = .ok u) (hk : k ≤ m)
    (hprev : ∀ j, j < k → env.ctxErrBefore j = none ∧ env.ctxDuringWait j = none ∧
      env.attempt j = ⟨none, none, .fail⟩) :
    (∀ ce, env.ctxErrBefore k = some ce →
      (fetch cfg (some env) q ep).result =
        .err (.wrapf "context cancelled" (.ctxFailure ce)) ∧
      (fetch cfg (some env) q ep).attempts = k) ∧
    (∀ ce, 1 ≤ k → env.ctxErrBefore k = none → env.ctxDuringWait k = some ce →
      (fetch cfg (some env) q ep).result =
        .err (.wrapf "context cancelled during retry" (.ctxFailure ce)) ∧
      (fetch cfg (some env) q ep).attempts = k) := by
  have htn : (cfg.maxRetries + 1).toNat = m + 1 := by
    rw [hm]
    omega
  rcases Nat.eq_zero_or_pos k with hk0 | hkpos
  · subst hk0
    constructor
    · intro ce hce
      have hstep : fetch cfg (some env) q ep =
          ⟨.err (.wrapf "context cancelled" (.ctxFailure ce)), 0, []⟩ := by
        show fetchLoop cfg (some env) q ep ((cfg.maxRetries + 1).toNat) 0 cfg.retryDelay none = _
        rw [htn]
        simp only [fetchLoop, hce]
      rw [hstep]
      exact ⟨rfl, rfl⟩
    · intro ce h1k
      exact absurd h1k (by omega)
  · have h0 := (hprev 0 hkpos).1
    have h2 := (hprev 0 hkpos).2.2
    have hres := fetchOnce_transport_fail cfg q ep u hb
    have haux := fetchLoop_ctx_fire_aux cfg env q ep u hb (k - 1) m 1 cfg.retryDelay
        (some (.wrapf "request failed" .transportFailure)) (by omega) (by omega)
        (fun j hj => by
          have hpj := hprev (j + 1) (by omega)
          rwa [show 1 + j = j + 1 by omega])
    rw [show 1 + (k - 1) = k by omega] at haux
    constructor
    · intro ce hce
      have hfire := haux.1 ce hce
      constructor
      · show (fetchLoop cfg (some env) q ep ((cfg.maxRetries + 1).toNat) 0 cfg.retryDelay none).result = _
        rw [htn]
        simp only [fetchLoop, h0, h2, hres, shouldRetry_transport]
        simp only [reduceIte]
        exact hfire.1
      · show (fetchLoop cfg (some env) q ep ((cfg.maxRetries + 1).toNat) 0 cfg.retryDelay none).attempts = _
        rw [htn]
        simp only [fetchLoop, h0, h2, hres, shouldRetry_transport]
        simp only [reduceIte]
        rw [hfire.2]
        omega
    · intro ce h1k hnone hsome
      have hfire := haux.2 ce hnone hsome
      constructor
      · show (fetchLoop cfg (some env) q ep ((cfg.maxRetries + 1).toNat) 0 cfg.retryDelay none).result = _
        rw [htn]
        simp only [fetchLoop, h0, h2, hres, shouldRetry_transport]
        simp only [reduceIte]
        exact hfire.1
      · show (fetchLoop cfg (some env) q ep ((cfg.maxRetries + 1).toNat) 0 cfg.retryDelay none).attempts = _
        rw [htn]
        simp only [fetchLoop, h0, h2, hres, shouldRetry_transport]
        simp only [reduceIte]
        rw [hfire.2]
        omega

/-- A context that completes just before the second attempt, over a
failing transport. -/
def c6Env : FetchEnv :=
  ⟨fun i => if i = 1 then some .canceled else none, fun _ => none,
   fun _ => ⟨none, none, .fail⟩⟩

/-- C6, witness: cancellation detected before attempt 1 stops the default
client after exactly one attempt. -/
theorem c6_witness :
    defaultConfig.maxRetries = ((3 : Nat) : Int) ∧ (1 : Nat) ≤ 3 ∧
    (∀ j, j < 1 → c6Env.ctxErrBefore j = none ∧ c6Env.ctxDuringWait j = none ∧
      c6Env.attempt j = ⟨none, none, .fail⟩) ∧
    c6Env.ctxErrBefore 1 = some .canceled ∧
    ((fetch defaultConfig (some c6Env) stationsQuery "gp.php").result =
      .err (.wrapf "context cancelled" (.ctxFailure .canceled)) ∧
     (fetch defaultConfig (some c6Env) stationsQuery "gp.php").attempts = 1) :=
  ⟨rfl, by omega, by decide, rfl,
   (c6_cancellation_aborts defaultConfig c6Env stationsQuery "gp.php"
      "https://celestrak.org/NORAD/elements/gp.php?FORMAT=TLE&GROUP=STATIONS" 3 1
      rfl rfl (by omega) (by decide)).1 .canceled rfl⟩

end Celestrak
